import Mathlib

/-!
Verification development for the CrowdManagement dashboard's live-state
reconciliation subsystem.

The definitions below are a shallow embedding of the TypeScript source:

* JsNum / JsPrim model JavaScript numbers (including NaN and the infinities)
  and the duck-typed primitive values that stream payloads and API responses
  carry.
* parseFloatJs models the JavaScript parseFloat builtin on the forms the
  code feeds it (optional sign, decimal digits with optional fraction, and
  the literal Infinity; leading whitespace and exponent forms are omitted,
  which no theorem below depends on).
* normalizeOccupancy embeds the onLiveOccupancy handler of
  src/components/dashboard/Dashboard.tsx (lines 401-528).
* retryWithBackoff embeds src/services/analytics.service.ts lines 76-110.
* applyBatch, dashStep and dashRun embed the result-processing part of
  loadDashboardData in Dashboard.tsx (lines 52-375) together with the
  socket handlers, as an explicit event loop over an explicit state record.
-/

/-- Model of a JavaScript number: NaN, the two infinities, or a finite value
(represented as a rational; all numerals the dashboard handles are exact). -/
inductive JsNum where
  | nan
  | posInf
  | negInf
  | fin (q : ℚ)
deriving DecidableEq, Repr

/-- The JavaScript isNaN test on a number. -/
def jsIsNaN : JsNum → Bool
  | .nan => true
  | _ => false

/-- The JavaScript comparison x >= 0 on a number.  Note that Infinity >= 0 is
true and NaN >= 0 is false, exactly as in JavaScript. -/
def jsGe0 : JsNum → Bool
  | .nan => false
  | .posInf => true
  | .negInf => false
  | .fin q => decide (0 ≤ q)

/-- Finiteness of a JavaScript number (the isFinite test). -/
def jsFiniteB : JsNum → Bool
  | .fin _ => true
  | _ => false

/-- A duck-typed JavaScript primitive value as it occurs in payload fields:
undefined, null, a number, a string, a boolean, or some other object. -/
inductive JsPrim where
  | undef
  | nullv
  | num (x : JsNum)
  | str (s : String)
  | boolv (b : Bool)
  | objv
deriving DecidableEq, Repr

/-- Accumulate a run of decimal digit characters into a natural number. -/
def digitsToNat (ds : List Char) : Nat :=
  ds.foldl (fun a c => a * 10 + (c.toNat - 48)) 0

/-- Core of the parseFloat model: parse an unsigned decimal number or the
literal Infinity from a character list; neg records a leading minus sign.
parseFloat stops at the first character that cannot extend the number, and
returns NaN when no number could be read at all. -/
def parseFloatCore (neg : Bool) (cs : List Char) : JsNum :=
  if cs.take 8 = "Infinity".toList then
    if neg then JsNum.negInf else JsNum.posInf
  else
    let ip := cs.takeWhile Char.isDigit
    let rest := cs.dropWhile Char.isDigit
    match rest with
    | '.' :: rest2 =>
      let fp := rest2.takeWhile Char.isDigit
      if ip = [] ∧ fp = [] then JsNum.nan
      else
        let mag : ℚ := (digitsToNat ip : ℚ) + (digitsToNat fp : ℚ) / ((10 : ℚ) ^ fp.length)
        JsNum.fin (if neg then -mag else mag)
    | _ =>
      if ip = [] then JsNum.nan
      else
        let mag : ℚ := (digitsToNat ip : ℚ)
        JsNum.fin (if neg then -mag else mag)

/-- Model of the JavaScript parseFloat builtin. -/
def parseFloatJs (s : String) : JsNum :=
  match s.toList with
  | '+' :: cs => parseFloatCore false cs
  | '-' :: cs => parseFloatCore true cs
  | cs => parseFloatCore false cs

/-- The coercion step the onLiveOccupancy handler applies to each probed
field: a string is passed through parseFloat, anything else is left as is
(Dashboard.tsx lines 421-424 and the analogous branches). -/
def coerceNum : JsPrim → JsPrim
  | .str s => .num (parseFloatJs s)
  | p => p

/-- Acceptance test for one probed occupancy candidate, exactly as in the
source: after coercion the value must be a number with !isNaN(parsed) and
parsed >= 0 (Dashboard.tsx line 425 and the analogous branches).  Infinity
passes this test because isNaN(Infinity) is false and Infinity >= 0. -/
def acceptOcc (p : JsPrim) : Option JsNum :=
  match coerceNum p with
  | .num x => if !jsIsNaN x && jsGe0 x then some x else none
  | _ => none

/-- The four named fields the onLiveOccupancy handler probes on an object
payload.  A field that is not present on the payload is undef. -/
structure OccObj where
  occupancy : JsPrim
  count : JsPrim
  current : JsPrim
  value : JsPrim
deriving DecidableEq, Repr

/-- A payload delivered to the onLiveOccupancy handler: either an object
with the probed fields, or a bare primitive (some servers send the number
directly). -/
inductive SocketPayload where
  | obj (o : OccObj)
  | prim (p : JsPrim)
deriving DecidableEq, Repr

/-- Embedding of the occupancy extraction in the onLiveOccupancy handler
(Dashboard.tsx lines 414-527).  On an object payload the fields occupancy,
count, current, value are probed in order, each guarded as in the source
(occupancy additionally against null); the direct-number probe at line 478
sits inside the object branch and is therefore unreachable.  A bare numeric
payload is handled by the else-if branch at line 510; every other bare
primitive is dropped. -/
def normalizeOccupancy : SocketPayload → Option JsNum
  | .obj o =>
    let v1 := if o.occupancy == JsPrim.undef || o.occupancy == JsPrim.nullv then none
              else acceptOcc o.occupancy
    let v2 := match v1 with
      | some v => some v
      | none => if o.count == JsPrim.undef then none else acceptOcc o.count
    let v3 := match v2 with
      | some v => some v
      | none => if o.current == JsPrim.undef then none else acceptOcc o.current
    let v4 := match v3 with
      | some v => some v
      | none => if o.value == JsPrim.undef then none else acceptOcc o.value
    v4
  | .prim (.num x) => if !jsIsNaN x && jsGe0 x then some x else none
  | .prim _ => none

/-- Spec-side description of the probing policy, written from the spec's
words for comparison with normalizeOccupancy: take the first field in the
given order whose value is accepted. -/
def specFirstAccepted (l : List JsPrim) : Option JsNum :=
  l.findSome? acceptOcc

example : normalizeOccupancy (SocketPayload.obj ⟨JsPrim.undef, JsPrim.str "42", JsPrim.undef, JsPrim.undef⟩) = some (JsNum.fin 42) := by decide

example : normalizeOccupancy (SocketPayload.obj ⟨JsPrim.undef, JsPrim.undef, JsPrim.undef, JsPrim.undef⟩) = none := by decide

example : normalizeOccupancy (SocketPayload.obj ⟨JsPrim.num JsNum.posInf, JsPrim.undef, JsPrim.undef, JsPrim.undef⟩) = some JsNum.posInf := by decide

/-- A failed HTTP request as the retry engine sees it: the axios error
marker, the optional HTTP status of the response, and a message. -/
structure JsError where
  isAxiosError : Bool
  status : Option Nat
  message : String
deriving DecidableEq, Repr

/-- Fatal classification in retryWithBackoff (analytics.service.ts lines
90-95): an axios error whose response status is 401 or 404. -/
def isFatalStatus (e : JsError) : Bool :=
  e.isAxiosError && (e.status == some 401 || e.status == some 404)

/-- Observable outcome of one run of the retry engine: the propagated result,
how many times the wrapped work was attempted, and the waits (in ms, in
order) performed between consecutive attempts. -/
structure RunOutcome (α : Type) where
  result : Except JsError α
  attempts : Nat
  delays : List Nat

/-- Embedding of the retry loop of retryWithBackoff (analytics.service.ts
lines 83-107).  The work is modelled as a function from the attempt index to
that attempt's outcome.  remaining stands for maxRetries - attempt, so the
source's test attempt === maxRetries is remaining = 0; the loop throws a
fatal error at once, throws the last error on the final attempt, and
otherwise waits baseDelay * 2 ^ attempt and retries. -/
def retryLoop (work : Nat → Except JsError α) (baseDelay : Nat) :
    Nat → Nat → RunOutcome α
  | remaining, attempt =>
    match work attempt with
    | .ok v => ⟨.ok v, 1, []⟩
    | .error e =>
      if isFatalStatus e then ⟨.error e, 1, []⟩
      else
        match remaining with
        | 0 => ⟨.error e, 1, []⟩
        | r + 1 =>
          let rest := retryLoop work baseDelay r (attempt + 1)
          ⟨rest.result, rest.attempts + 1, baseDelay * 2 ^ attempt :: rest.delays⟩

/-- Embedding of retryWithBackoff(fn, maxRetries, baseDelay): the loop runs
attempt = 0 .. maxRetries (analytics.service.ts line 83). -/
def retryWithBackoff (work : Nat → Except JsError α) (maxRetries baseDelay : Nat) :
    RunOutcome α :=
  retryLoop work baseDelay maxRetries 0

/-- Every run of the loop makes at least one attempt. -/
lemma retryLoop_attempts_pos (work : Nat → Except JsError α) (d r a : Nat) :
    1 ≤ (retryLoop work d r a).attempts := by
  cases r with
  | zero =>
    rw [retryLoop]
    cases work a with
    | ok v => simp
    | error e =>
      by_cases hf : isFatalStatus e <;> simp [hf]
  | succ r =>
    rw [retryLoop]
    cases work a with
    | ok v => simp
    | error e =>
      by_cases hf : isFatalStatus e <;> simp [hf]

/-- The loop starting at attempt a with r attempts left makes at most r + 1
attempts. -/
lemma retryLoop_attempts_le (work : Nat → Except JsError α) (d : Nat) :
    ∀ r a, (retryLoop work d r a).attempts ≤ r + 1 := by
  intro r
  induction r with
  | zero =>
    intro a
    rw [retryLoop]
    cases work a with
    | ok v => simp
    | error e => by_cases hf : isFatalStatus e <;> simp [hf]
  | succ r ih =>
    intro a
    rw [retryLoop]
    cases work a with
    | ok v => simp
    | error e =>
      by_cases hf : isFatalStatus e <;> simp [hf]
      exact ih (a + 1)

/-- The waits performed by a run starting at attempt a are exactly
baseDelay * 2 ^ (a + i) for i below the number of attempts minus one, in
order: each failed non-final attempt at index j waits baseDelay * 2 ^ j. -/
lemma retryLoop_delays_shape (work : Nat → Except JsError α) (d : Nat) :
    ∀ r a, (retryLoop work d r a).delays =
      (List.range ((retryLoop work d r a).attempts - 1)).map (fun i => d * 2 ^ (a + i)) := by
  intro r
  induction r with
  | zero =>
    intro a
    rw [retryLoop]
    cases work a with
    | ok v => simp
    | error e => by_cases hf : isFatalStatus e <;> simp [hf]
  | succ r ih =>
    intro a
    rw [retryLoop]
    cases work a with
    | ok v => simp
    | error e =>
      by_cases hf : isFatalStatus e <;> simp [hf]
      have hpos := retryLoop_attempts_pos work d r (a + 1)
      obtain ⟨n, hn⟩ : ∃ n, (retryLoop work d r (a + 1)).attempts = n + 1 :=
        ⟨(retryLoop work d r (a + 1)).attempts - 1, by omega⟩
      rw [ih (a + 1), hn]
      simp [List.range_succ_eq_map, List.map_map, Function.comp]
      intro i _
      exact Or.inl (by omega)

/-- When every attempt fails non-fatally, the loop propagates the failure of
its final attempt (the last observed error). -/
lemma retryLoop_exhaust (work : Nat → Except JsError α) (d : Nat)
    (f : Nat → JsError) (hw : ∀ i, work i = .error (f i))
    (hnf : ∀ i, isFatalStatus (f i) = false) :
    ∀ r a, (retryLoop work d r a).result = .error (f (a + r)) := by
  intro r
  induction r with
  | zero =>
    intro a
    rw [retryLoop, hw a]
    simp [hnf a]
  | succ r ih =>
    intro a
    rw [retryLoop, hw a]
    simp [hnf a]
    have := ih (a + 1)
    rw [show a + 1 + r = a + (r + 1) by omega] at this
    exact this


/-- A settled result of one query in the Promise.allSettled batch
(Dashboard.tsx line 159): fulfilled with a payload or rejected with the
reason's message (an empty message models a reason without a message, which
line 176 replaces by the fixed fallback text). -/
inductive Settled (α : Type) where
  | fulfilled (v : α)
  | rejected (reason : String)
deriving DecidableEq, Repr

/-- Whether a settled result is rejected. -/
def Settled.isRejected : Settled α → Bool
  | .rejected _ => true
  | .fulfilled _ => false

/-- The dwell response as loadDashboardData reads it (line 189): only its
avgDwellMinutes field, possibly absent or of the wrong type. -/
structure DwellResp where
  avgDwellMinutes : JsPrim
deriving DecidableEq, Repr

/-- The footfall response as read at line 205. -/
structure FootfallResp where
  footfall : JsPrim
deriving DecidableEq, Repr

/-- One occupancy bucket: its utc timestamp and its avg value, the latter
possibly absent or non-numeric. -/
structure Bucket where
  utc : Int
  avg : JsPrim
deriving DecidableEq, Repr

/-- The occupancy response as read at lines 216-318: optional scalar fields
current and occupancy, and a buckets field that is either an array (some)
or not an array at all (none, covering absent as well). -/
structure OccResp where
  current : JsPrim
  occupancy : JsPrim
  buckets : Option (List Bucket)
deriving DecidableEq, Repr

/-- The demographics response (lines 326-339): the code only tests that it
is a truthy object before storing it; tag distinguishes instances. -/
structure DemoResp where
  isObjTruthy : Bool
  tag : Nat
deriving DecidableEq, Repr

/-- The numeric validity test used for dwell, footfall and the occupancy
scalars: typeof v === "number" and !isNaN(v) and v >= 0 (no string
coercion here, unlike the socket path). -/
def jsValidNum : JsPrim → Option JsNum
  | .num x => if !jsIsNaN x && jsGe0 x then some x else none
  | _ => none

/-- Occupancy scalar extraction (Dashboard.tsx lines 220-267): prefer a
valid current field, then a valid occupancy field, then the avg of the
last bucket of a non-empty buckets array; otherwise no value. -/
def occValueOf (r : OccResp) : Option JsNum :=
  match jsValidNum r.current with
  | some v => some v
  | none =>
    match jsValidNum r.occupancy with
    | some v => some v
    | none =>
      match r.buckets with
      | some bs =>
        match bs.getLast? with
        | some bk => jsValidNum bk.avg
        | none => none
      | none => none

/-- One point of the occupancy chart series (lines 313-318): the bucket's
utc timestamp and its avg passed through unvalidated. -/
structure ChartPoint where
  utc : Int
  occupancy : JsPrim
deriving DecidableEq, Repr

/-- The chart series built from a fulfilled occupancy response (lines
313-318): the buckets mapped through, or empty when buckets is not an
array. -/
def chartOf (r : OccResp) : List ChartPoint :=
  match r.buckets with
  | some bs => bs.map (fun bk => ⟨bk.utc, bk.avg⟩)
  | none => []

/-- The batch of the four named queries, in the order of the apiCalls array
(lines 103-136): Dwell Time, Footfall, Occupancy, Demographics. -/
structure BatchResults where
  dwell : Settled DwellResp
  footfall : Settled FootfallResp
  occupancy : Settled OccResp
  demographics : Settled DemoResp
deriving DecidableEq, Repr

/-- The failed call names collected at lines 170-181, in batch order. -/
def failedNames (b : BatchResults) : List String :=
  (if b.dwell.isRejected then ["Dwell Time"] else []) ++
  (if b.footfall.isRejected then ["Footfall"] else []) ++
  (if b.occupancy.isRejected then ["Occupancy"] else []) ++
  (if b.demographics.isRejected then ["Demographics"] else [])

/-- The reason text of one rejected result as line 175 renders it:
result.reason?.message, or "Unknown error" when falsy. -/
def reasonText (m : String) : String :=
  if m = "" then "Unknown error" else m

/-- The per-call error strings collected at lines 170-181, in batch order. -/
def errorTexts (b : BatchResults) : List String :=
  (match b.dwell with
   | .rejected m => ["Dwell Time: " ++ reasonText m]
   | .fulfilled _ => []) ++
  (match b.footfall with
   | .rejected m => ["Footfall: " ++ reasonText m]
   | .fulfilled _ => []) ++
  (match b.occupancy with
   | .rejected m => ["Occupancy: " ++ reasonText m]
   | .fulfilled _ => []) ++
  (match b.demographics with
   | .rejected m => ["Demographics: " ++ reasonText m]
   | .fulfilled _ => [])

/-- hasError of line 166: some query in the batch was rejected. -/
def anyRejected (b : BatchResults) : Bool :=
  b.dwell.isRejected || b.footfall.isRejected ||
  b.occupancy.isRejected || b.demographics.isRejected

/-- results.every(r => r.status === "rejected") of line 342. -/
def allRejected (b : BatchResults) : Bool :=
  b.dwell.isRejected && b.footfall.isRejected &&
  b.occupancy.isRejected && b.demographics.isRejected

/-- The blocking message built at lines 343-347. -/
def allFailedMessage (b : BatchResults) : String :=
  "All API calls failed: " ++ String.intercalate ", " (errorTexts b) ++
  ". Please check your connection and try again."

/-- A scheduled zero-grace timeout (lines 278-286): the polled value it
would apply and the copy of liveOccupancyFromSocket its callback closed
over. -/
structure PendingZero where
  value : JsNum
  snapSocket : Option JsNum
deriving DecidableEq, Repr

/-- The values of liveOccupancyFromSocket and liveOccupancy that
loadDashboardData's closure reads.  loadDashboardData is built with
useCallback and an empty dependency list (line 375), so the closure is
created once, at the first render, and every later invocation still reads
the first render's values; initialSnap below is that frozen snapshot. -/
structure ClosureSnap where
  socketVal : Option JsNum
  liveOcc : Option JsNum
deriving DecidableEq, Repr

/-- The dashboard state touched by the reconciliation logic: the displayed
metrics, the chart series, the error banner state, the failed-call names
and the pending zero-grace timeout. -/
structure DashState where
  liveOccupancy : Option JsNum
  liveOccupancyFromSocket : Option JsNum
  todayFootfall : Option JsNum
  avgDwellTime : Option JsNum
  occupancyData : List ChartPoint
  demographicsData : Option DemoResp
  errorMsg : Option String
  failedCalls : List String
  pendingZero : Option PendingZero
deriving DecidableEq, Repr

/-- The state at view activation: every metric null, series empty, no
error, no failed calls, no pending timeout. -/
def initialDashState : DashState :=
  ⟨none, none, none, none, [], none, none, [], none⟩

/-- The closure snapshot loadDashboardData actually has: the first render's
values, both null. -/
def initialSnap : ClosureSnap := ⟨none, none⟩

/-- Applying the dwell result (lines 187-201): on fulfilment the metric is
assigned the validated value or null; a rejection leaves it unchanged. -/
def applyDwell (s : DashState) : Settled DwellResp → DashState
  | .fulfilled r => { s with avgDwellTime := jsValidNum r.avgDwellMinutes }
  | .rejected _ => s

/-- Applying the footfall result (lines 203-213). -/
def applyFootfall (s : DashState) : Settled FootfallResp → DashState
  | .fulfilled r => { s with todayFootfall := jsValidNum r.footfall }
  | .rejected _ => s

/-- The merge of the polled occupancy scalar into the displayed value
(lines 269-310), with the closure snapshot made explicit: the tests of
liveOccupancyFromSocket and liveOccupancy read the frozen closure values,
not the current state.  A polled zero schedules the grace timeout instead
of displaying; a polled non-zero displays when the closure saw no socket
value; an unextractable value resets the display to null only when the
closure saw neither a socket value nor a displayed value. -/
def mergeOccValue (snap : ClosureSnap) (s : DashState) (v? : Option JsNum) : DashState :=
  match v? with
  | some v =>
    if snap.socketVal = none then
      if v = JsNum.fin 0 then
        { s with pendingZero := some ⟨v, snap.socketVal⟩ }
      else
        { s with liveOccupancy := some v }
    else
      s
  | none =>
    if snap.socketVal = none ∧ snap.liveOcc = none then
      { s with liveOccupancy := none }
    else
      s

/-- Applying the occupancy result (lines 215-324): on fulfilment the scalar
is merged and the chart series is assigned; a rejection changes nothing. -/
def applyOccupancy (snap : ClosureSnap) (s : DashState) : Settled OccResp → DashState
  | .fulfilled r =>
    let s1 := mergeOccValue snap s (occValueOf r)
    { s1 with occupancyData := chartOf r }
  | .rejected _ => s

/-- Applying the demographics result (lines 326-339): a truthy object is
stored, anything else stores null; a rejection changes nothing. -/
def applyDemographics (s : DashState) : Settled DemoResp → DashState
  | .fulfilled r => { s with demographicsData := if r.isObjTruthy then some r else none }
  | .rejected _ => s

/-- The net effect of one completed run of loadDashboardData's
result-processing on the state (lines 52-375): failedCalls is cleared at
the start (line 56) and then assigned this batch's failures (line 184),
error is cleared (line 55) and set again only when every call failed
(lines 342-347), and each fulfilled query's metric is assigned. -/
def applyBatch (snap : ClosureSnap) (s : DashState) (b : BatchResults) : DashState :=
  let s1 := applyDwell s b.dwell
  let s2 := applyFootfall s1 b.footfall
  let s3 := applyOccupancy snap s2 b.occupancy
  let s4 := applyDemographics s3 b.demographics
  { s4 with
    failedCalls := failedNames b,
    errorMsg := if anyRejected b && allRejected b then some (allFailedMessage b) else none }

/-- The zero-grace timeout callback firing (lines 278-286): it tests the
closure's copy of liveOccupancyFromSocket that it captured at scheduling
time — not the current state — and applies the polled value when that
frozen copy is null. -/
def fireZeroTimeout (s : DashState) : DashState :=
  match s.pendingZero with
  | none => s
  | some p =>
    if p.snapSocket = none then
      { s with liveOccupancy := some p.value, pendingZero := none }
    else
      { s with pendingZero := none }

/-- The onLiveOccupancy socket handler's effect on state (lines 492-519):
an extracted sample assigns both liveOccupancyFromSocket and the displayed
liveOccupancy; a dropped payload changes nothing. -/
def applySocketOccupancy (s : DashState) (p : SocketPayload) : DashState :=
  match normalizeOccupancy p with
  | some v => { s with liveOccupancyFromSocket := some v, liveOccupancy := some v }
  | none => s

/-- The events of the single-threaded dashboard loop that touch the
reconciled state. -/
inductive DashEvent where
  | batchResolve (b : BatchResults)
  | socketOccupancy (p : SocketPayload)
  | zeroTimeoutFire
deriving DecidableEq, Repr

/-- One step of the loop. -/
def dashStep (snap : ClosureSnap) (s : DashState) : DashEvent → DashState
  | .batchResolve b => applyBatch snap s b
  | .socketOccupancy p => applySocketOccupancy s p
  | .zeroTimeoutFire => fireZeroTimeout s

/-- A run of the loop over a time-ordered event list. -/
def dashRun (snap : ClosureSnap) (s : DashState) (es : List DashEvent) : DashState :=
  es.foldl (dashStep snap) s

/-- The displayed-value part of the merge, as a function of the old
displayed value alone; used to characterize mergeOccValue. -/
def mergedLo (snap : ClosureSnap) (old : Option JsNum) : Option JsNum → Option JsNum
  | some v =>
    if snap.socketVal = none then
      (if v = JsNum.fin 0 then old else some v)
    else old
  | none =>
    if snap.socketVal = none ∧ snap.liveOcc = none then none else old

lemma mergeOccValue_lo (snap : ClosureSnap) (s : DashState) (v? : Option JsNum) :
    (mergeOccValue snap s v?).liveOccupancy = mergedLo snap s.liveOccupancy v? := by
  cases v? <;> simp only [mergeOccValue, mergedLo] <;> split_ifs <;> rfl

lemma mergedLo_idem (snap : ClosureSnap) (old : Option JsNum) (v? : Option JsNum) :
    mergedLo snap (mergedLo snap old v?) v? = mergedLo snap old v? := by
  cases v? <;> simp only [mergedLo] <;> split_ifs <;> rfl

lemma mergeOccValue_avg (snap : ClosureSnap) (s : DashState) (v? : Option JsNum) :
    (mergeOccValue snap s v?).avgDwellTime = s.avgDwellTime := by
  cases v? <;> simp only [mergeOccValue] <;> split_ifs <;> rfl

lemma mergeOccValue_footfall (snap : ClosureSnap) (s : DashState) (v? : Option JsNum) :
    (mergeOccValue snap s v?).todayFootfall = s.todayFootfall := by
  cases v? <;> simp only [mergeOccValue] <;> split_ifs <;> rfl

lemma mergeOccValue_demo (snap : ClosureSnap) (s : DashState) (v? : Option JsNum) :
    (mergeOccValue snap s v?).demographicsData = s.demographicsData := by
  cases v? <;> simp only [mergeOccValue] <;> split_ifs <;> rfl

lemma applyDwell_avg (s : DashState) (r : Settled DwellResp) :
    (applyDwell s r).avgDwellTime =
      (match r with
       | .fulfilled x => jsValidNum x.avgDwellMinutes
       | .rejected _ => s.avgDwellTime) := by
  cases r <;> rfl

lemma applyDwell_footfall (s : DashState) (r : Settled DwellResp) :
    (applyDwell s r).todayFootfall = s.todayFootfall := by cases r <;> rfl

lemma applyDwell_lo (s : DashState) (r : Settled DwellResp) :
    (applyDwell s r).liveOccupancy = s.liveOccupancy := by cases r <;> rfl

lemma applyDwell_demo (s : DashState) (r : Settled DwellResp) :
    (applyDwell s r).demographicsData = s.demographicsData := by cases r <;> rfl

lemma applyFootfall_footfall (s : DashState) (r : Settled FootfallResp) :
    (applyFootfall s r).todayFootfall =
      (match r with
       | .fulfilled x => jsValidNum x.footfall
       | .rejected _ => s.todayFootfall) := by
  cases r <;> rfl

lemma applyFootfall_avg (s : DashState) (r : Settled FootfallResp) :
    (applyFootfall s r).avgDwellTime = s.avgDwellTime := by cases r <;> rfl

lemma applyFootfall_lo (s : DashState) (r : Settled FootfallResp) :
    (applyFootfall s r).liveOccupancy = s.liveOccupancy := by cases r <;> rfl

lemma applyFootfall_demo (s : DashState) (r : Settled FootfallResp) :
    (applyFootfall s r).demographicsData = s.demographicsData := by cases r <;> rfl

lemma applyOccupancy_lo (snap : ClosureSnap) (s : DashState) (r : Settled OccResp) :
    (applyOccupancy snap s r).liveOccupancy =
      (match r with
       | .fulfilled x => mergedLo snap s.liveOccupancy (occValueOf x)
       | .rejected _ => s.liveOccupancy) := by
  cases r with
  | rejected m => rfl
  | fulfilled x =>
    show (mergeOccValue snap s (occValueOf x)).liveOccupancy = _
    exact mergeOccValue_lo snap s (occValueOf x)

lemma applyOccupancy_avg (snap : ClosureSnap) (s : DashState) (r : Settled OccResp) :
    (applyOccupancy snap s r).avgDwellTime = s.avgDwellTime := by
  cases r with
  | rejected m => rfl
  | fulfilled x =>
    show (mergeOccValue snap s (occValueOf x)).avgDwellTime = _
    exact mergeOccValue_avg snap s (occValueOf x)

lemma applyOccupancy_footfall (snap : ClosureSnap) (s : DashState) (r : Settled OccResp) :
    (applyOccupancy snap s r).todayFootfall = s.todayFootfall := by
  cases r with
  | rejected m => rfl
  | fulfilled x =>
    show (mergeOccValue snap s (occValueOf x)).todayFootfall = _
    exact mergeOccValue_footfall snap s (occValueOf x)

lemma applyOccupancy_demo (snap : ClosureSnap) (s : DashState) (r : Settled OccResp) :
    (applyOccupancy snap s r).demographicsData = s.demographicsData := by
  cases r with
  | rejected m => rfl
  | fulfilled x =>
    show (mergeOccValue snap s (occValueOf x)).demographicsData = _
    exact mergeOccValue_demo snap s (occValueOf x)

lemma applyDemographics_demo (s : DashState) (r : Settled DemoResp) :
    (applyDemographics s r).demographicsData =
      (match r with
       | .fulfilled x => if x.isObjTruthy then some x else none
       | .rejected _ => s.demographicsData) := by
  cases r <;> rfl

lemma applyDemographics_avg (s : DashState) (r : Settled DemoResp) :
    (applyDemographics s r).avgDwellTime = s.avgDwellTime := by cases r <;> rfl

lemma applyDemographics_footfall (s : DashState) (r : Settled DemoResp) :
    (applyDemographics s r).todayFootfall = s.todayFootfall := by cases r <;> rfl

lemma applyDemographics_lo (s : DashState) (r : Settled DemoResp) :
    (applyDemographics s r).liveOccupancy = s.liveOccupancy := by cases r <;> rfl

lemma applyBatch_failed (snap : ClosureSnap) (s : DashState) (b : BatchResults) :
    (applyBatch snap s b).failedCalls = failedNames b := rfl

lemma applyBatch_error (snap : ClosureSnap) (s : DashState) (b : BatchResults) :
    (applyBatch snap s b).errorMsg =
      (if anyRejected b && allRejected b then some (allFailedMessage b) else none) := rfl

lemma applyBatch_avg (snap : ClosureSnap) (s : DashState) (b : BatchResults) :
    (applyBatch snap s b).avgDwellTime =
      (match b.dwell with
       | .fulfilled r => jsValidNum r.avgDwellMinutes
       | .rejected _ => s.avgDwellTime) := by
  show (applyDemographics (applyOccupancy snap (applyFootfall (applyDwell s b.dwell) b.footfall) b.occupancy) b.demographics).avgDwellTime = _
  rw [applyDemographics_avg, applyOccupancy_avg, applyFootfall_avg, applyDwell_avg]

lemma applyBatch_footfall (snap : ClosureSnap) (s : DashState) (b : BatchResults) :
    (applyBatch snap s b).todayFootfall =
      (match b.footfall with
       | .fulfilled r => jsValidNum r.footfall
       | .rejected _ => s.todayFootfall) := by
  show (applyDemographics (applyOccupancy snap (applyFootfall (applyDwell s b.dwell) b.footfall) b.occupancy) b.demographics).todayFootfall = _
  rw [applyDemographics_footfall, applyOccupancy_footfall, applyFootfall_footfall, applyDwell_footfall]

lemma applyBatch_lo (snap : ClosureSnap) (s : DashState) (b : BatchResults) :
    (applyBatch snap s b).liveOccupancy =
      (match b.occupancy with
       | .fulfilled r => mergedLo snap s.liveOccupancy (occValueOf r)
       | .rejected _ => s.liveOccupancy) := by
  show (applyDemographics (applyOccupancy snap (applyFootfall (applyDwell s b.dwell) b.footfall) b.occupancy) b.demographics).liveOccupancy = _
  rw [applyDemographics_lo, applyOccupancy_lo, applyFootfall_lo, applyDwell_lo]

lemma applyBatch_demo (snap : ClosureSnap) (s : DashState) (b : BatchResults) :
    (applyBatch snap s b).demographicsData =
      (match b.demographics with
       | .fulfilled r => if r.isObjTruthy then some r else none
       | .rejected _ => s.demographicsData) := by
  show (applyDemographics (applyOccupancy snap (applyFootfall (applyDwell s b.dwell) b.footfall) b.occupancy) b.demographics).demographicsData = _
  rw [applyDemographics_demo, applyOccupancy_demo, applyFootfall_demo, applyDwell_demo]

lemma anyRejected_and_allRejected (b : BatchResults) :
    (anyRejected b && allRejected b) = allRejected b := by
  cases hb : b.dwell <;>
    simp [anyRejected, allRejected, Settled.isRejected, hb]

/-- C5: a batch is classified whole-batch-failure (the blocking error
message is set) exactly when every query in the batch fails; otherwise the
error stays cleared while each fulfilled query's metric is assigned
(partial population), and failedCalls holds exactly the names of the
queries rejected in this batch — independently of any earlier content,
since it is cleared at the start of the run and assigned afresh. -/
theorem batch_failure_classification (snap : ClosureSnap) (s : DashState) (b : BatchResults) :
    (applyBatch snap s b).failedCalls = failedNames b ∧
    (applyBatch snap s b).errorMsg.isSome = allRejected b ∧
    (applyBatch snap s b).avgDwellTime =
      (match b.dwell with
       | .fulfilled r => jsValidNum r.avgDwellMinutes
       | .rejected _ => s.avgDwellTime) ∧
    (applyBatch snap s b).todayFootfall =
      (match b.footfall with
       | .fulfilled r => jsValidNum r.footfall
       | .rejected _ => s.todayFootfall) ∧
    (applyBatch snap s b).demographicsData =
      (match b.demographics with
       | .fulfilled r => if r.isObjTruthy then some r else none
       | .rejected _ => s.demographicsData) := by
  refine ⟨applyBatch_failed snap s b, ?_, applyBatch_avg snap s b,
    applyBatch_footfall snap s b, applyBatch_demo snap s b⟩
  rw [applyBatch_error, anyRejected_and_allRejected b]
  cases h : allRejected b <;> simp

/-- C8: applying the same settled batch to the reconciler twice in
succession yields the same four view-model metric values as applying it
once — the per-metric extraction assigns rather than accumulates. -/
theorem reapply_batch_idempotent (snap : ClosureSnap) (s : DashState) (b : BatchResults) :
    (applyBatch snap (applyBatch snap s b) b).avgDwellTime =
      (applyBatch snap s b).avgDwellTime ∧
    (applyBatch snap (applyBatch snap s b) b).todayFootfall =
      (applyBatch snap s b).todayFootfall ∧
    (applyBatch snap (applyBatch snap s b) b).liveOccupancy =
      (applyBatch snap s b).liveOccupancy ∧
    (applyBatch snap (applyBatch snap s b) b).demographicsData =
      (applyBatch snap s b).demographicsData := by
  refine ⟨?_, ?_, ?_, ?_⟩
  · rw [applyBatch_avg, applyBatch_avg]
    cases b.dwell <;> simp
  · rw [applyBatch_footfall, applyBatch_footfall]
    cases b.footfall <;> simp
  · rw [applyBatch_lo, applyBatch_lo]
    cases b.occupancy with
    | rejected m => simp
    | fulfilled r => exact mergedLo_idem snap s.liveOccupancy (occValueOf r)
  · rw [applyBatch_demo, applyBatch_demo]
    cases b.demographics <;> simp

/-- An occupancy response whose last (only) bucket has average 0 and which
has no scalar current or occupancy field. -/
def occRespZero : OccResp := ⟨JsPrim.undef, JsPrim.undef, some [⟨0, JsPrim.num (JsNum.fin 0)⟩]⟩

/-- A batch in which only the occupancy query succeeds, with derived
occupancy value 0. -/
def batchZero : BatchResults :=
  ⟨.rejected "boom", .rejected "boom", .fulfilled occRespZero, .rejected "boom"⟩

/-- A live sample of value 7 as a bare numeric payload. -/
def sampleSeven : DashEvent :=
  DashEvent.socketOccupancy (SocketPayload.prim (JsPrim.num (JsNum.fin 7)))

/-- C1 evidence: run of the embedded loop on the claim's own scenario.  The
polled batch with derived occupancy 0 resolves before any live sample: the
code indeed does not display 0 immediately (conjunct 1) and schedules the
grace timeout with the closure's frozen null copy of
liveOccupancyFromSocket (conjunct 2); with no sample, the polled 0 is
applied when the timeout fires (conjunct 3); a live sample of 7 inside the
window is displayed (conjunct 4); but when the timeout then fires it tests
the frozen null copy instead of the current state, so the final displayed
value is 0, not the streamed 7 the claim (and the source's own comments at
Dashboard.tsx lines 273-277) require (conjunct 5). -/
theorem zero_grace_timeout_overwrites_stream :
    (dashRun initialSnap initialDashState
      [DashEvent.batchResolve batchZero]).liveOccupancy = none ∧
    (dashRun initialSnap initialDashState
      [DashEvent.batchResolve batchZero]).pendingZero = some ⟨JsNum.fin 0, none⟩ ∧
    (dashRun initialSnap initialDashState
      [DashEvent.batchResolve batchZero,
       DashEvent.zeroTimeoutFire]).liveOccupancy = some (JsNum.fin 0) ∧
    (dashRun initialSnap initialDashState
      [DashEvent.batchResolve batchZero, sampleSeven]).liveOccupancy = some (JsNum.fin 7) ∧
    (dashRun initialSnap initialDashState
      [DashEvent.batchResolve batchZero, sampleSeven,
       DashEvent.zeroTimeoutFire]).liveOccupancy = some (JsNum.fin 0) := by
  refine ⟨rfl, rfl, rfl, rfl, rfl⟩

/-- An occupancy response with a valid scalar current field of 50. -/
def occRespFifty : OccResp := ⟨JsPrim.num (JsNum.fin 50), JsPrim.undef, none⟩

/-- A batch in which only the occupancy query succeeds, with derived
occupancy value 50. -/
def batchFifty : BatchResults :=
  ⟨.rejected "boom", .rejected "boom", .fulfilled occRespFifty, .rejected "boom"⟩

/-- C2 evidence: a live sample of 7 is observed (conjunct 1) and is still
recorded in liveOccupancyFromSocket when a polled batch with occupancy 50
is applied (conjunct 2), yet the batch overwrites the displayed
liveOccupancy with the polled 50 (conjunct 3): loadDashboardData is
memoized with an empty dependency list, so its test of
liveOccupancyFromSocket reads the first render's null and the socket
priority promised by the claim (and by the source's comment at
Dashboard.tsx line 269) is lost. -/
theorem poll_overwrites_observed_sample :
    (dashRun initialSnap initialDashState [sampleSeven]).liveOccupancy = some (JsNum.fin 7) ∧
    (dashRun initialSnap initialDashState
      [sampleSeven, DashEvent.batchResolve batchFifty]).liveOccupancyFromSocket =
        some (JsNum.fin 7) ∧
    (dashRun initialSnap initialDashState
      [sampleSeven, DashEvent.batchResolve batchFifty]).liveOccupancy =
        some (JsNum.fin 50) := by
  refine ⟨rfl, rfl, rfl⟩

/-- An alert event as the onAlert handler sees it: valid records the guard
event && typeof event === "object" (Dashboard.tsx line 534), tag
distinguishes events. -/
structure AlertEv where
  valid : Bool
  tag : Nat
deriving DecidableEq, Repr

/-- Embedding of the onAlert socket handler (Dashboard.tsx lines 531-545):
a truthy object event, while the alerts panel is open (the armed ref), is
prepended to the buffer which is then truncated to the first 100 entries;
otherwise the buffer is untouched. -/
def onAlertPush (armed : Bool) (buf : List AlertEv) (e : AlertEv) : List AlertEv :=
  if e.valid then
    if armed then (e :: buf).take 100 else buf
  else buf

/-- A sequence of alert pushes applied in arrival order. -/
def pushAllAlerts (armed : Bool) (buf : List AlertEv) (es : List AlertEv) : List AlertEv :=
  es.foldl (onAlertPush armed) buf

lemma take_append_take {α : Type} (l m : List α) (n : Nat) :
    (l ++ m.take n).take n = (l ++ m).take n := by
  rw [List.take_append_eq_append_take, List.take_append_eq_append_take, List.take_take]
  have hmin : min (n - l.length) n = n - l.length := by omega
  rw [hmin]

lemma pushAllAlerts_valid (es : List AlertEv) :
    ∀ buf : List AlertEv, buf.length ≤ 100 → (∀ e ∈ es, e.valid = true) →
      pushAllAlerts true buf es = (es.reverse ++ buf).take 100 := by
  induction es with
  | nil =>
    intro buf hlen _
    simp [pushAllAlerts, List.take_of_length_le hlen]
  | cons e es ih =>
    intro buf hlen hv
    have hev : e.valid = true := hv e (by simp)
    have hrest : ∀ x ∈ es, x.valid = true := fun x hx => hv x (by simp [hx])
    show pushAllAlerts true (onAlertPush true buf e) es = _
    rw [show onAlertPush true buf e = (e :: buf).take 100 by simp [onAlertPush, hev]]
    rw [ih ((e :: buf).take 100) (by simp) hrest]
    rw [take_append_take]
    simp [List.append_assoc]

/-- C3: the alert buffer contract: while disarmed (panel closed) a push
leaves the buffer unchanged; a push never grows the buffer past 100; while
armed, pushing any run of valid events leaves the newest-first prefix of
the pushed events (newest first) in front of the old content, truncated to
100; in particular 150 pushes from empty leave exactly the 100 most recent
events, newest first. -/
theorem alert_buffer_contract :
    (∀ (buf : List AlertEv) (e : AlertEv), onAlertPush false buf e = buf) ∧
    (∀ (armed : Bool) (buf : List AlertEv) (e : AlertEv),
        buf.length ≤ 100 → (onAlertPush armed buf e).length ≤ 100) ∧
    (∀ (buf : List AlertEv) (es : List AlertEv), buf.length ≤ 100 →
        (∀ e ∈ es, e.valid = true) →
        pushAllAlerts true buf es = (es.reverse ++ buf).take 100) ∧
    (∀ es : List AlertEv, (∀ e ∈ es, e.valid = true) → es.length = 150 →
        pushAllAlerts true [] es = es.reverse.take 100 ∧
        (pushAllAlerts true [] es).length = 100) := by
  refine ⟨?_, ?_, ?_, ?_⟩
  · intro buf e
    simp [onAlertPush]
  · intro armed buf e hlen
    unfold onAlertPush
    split_ifs
    · simp only [List.length_take]
      omega
    · exact hlen
    · exact hlen
  · intro buf es hlen hv
    exact pushAllAlerts_valid es buf hlen hv
  · intro es hv hlen
    have h := pushAllAlerts_valid es [] (by simp) hv
    rw [List.append_nil] at h
    refine ⟨h, ?_⟩
    rw [h]
    simp [hlen]

/-- Witness for the alert buffer contract: pushing 150 concrete valid
events while armed leaves exactly the newest 100, and the buffer length is
exactly 100. -/
theorem alert_buffer_contract_witness :
    pushAllAlerts true [] ((List.range 150).map (fun n => AlertEv.mk true n)) =
      ((List.range 150).map (fun n => AlertEv.mk true n)).reverse.take 100 ∧
    (pushAllAlerts true [] ((List.range 150).map (fun n => AlertEv.mk true n))).length = 100 :=
  alert_buffer_contract.2.2.2 ((List.range 150).map (fun n => AlertEv.mk true n))
    (by intro e he; obtain ⟨n, -, rfl⟩ := List.mem_map.mp he; rfl)
    (by simp)

/-- C4: a failure the engine classifies Fatal (axios error with status 401
or 404) on the first attempt propagates at once: exactly one attempt of
the wrapped work is made, no wait is performed and the propagated error is
that failure, whatever maxRetries was passed. -/
theorem fatal_failure_single_attempt {α : Type} (work : Nat → Except JsError α)
    (maxRetries baseDelay : Nat) (e : JsError)
    (h0 : work 0 = .error e) (hf : isFatalStatus e = true) :
    (retryWithBackoff work maxRetries baseDelay).result = .error e ∧
    (retryWithBackoff work maxRetries baseDelay).attempts = 1 ∧
    (retryWithBackoff work maxRetries baseDelay).delays = [] := by
  unfold retryWithBackoff
  rw [retryLoop, h0]
  simp [hf]

/-- The canonical fatal error: an axios 401 response. -/
def err401 : JsError := ⟨true, some 401, "Request failed with status code 401"⟩

/-- Witness: a work that always fails with a 401 is attempted exactly once
even with maxRetries = 3. -/
theorem fatal_failure_single_attempt_witness :
    (retryWithBackoff (fun _ => (Except.error err401 : Except JsError Nat)) 3 1000).result =
      Except.error err401 ∧
    (retryWithBackoff (fun _ => (Except.error err401 : Except JsError Nat)) 3 1000).attempts = 1 ∧
    (retryWithBackoff (fun _ => (Except.error err401 : Except JsError Nat)) 3 1000).delays = [] :=
  fatal_failure_single_attempt (fun _ => Except.error err401) 3 1000 err401 rfl (by decide)

/-- C7: the retry engine makes at most maxRetries + 1 attempts in total
(the call site passes maxRetries = maxAttempts - 1: see the comment at
analytics.service.ts line 131, "Reduce retries to 1 (total 2 attempts)");
the waits between consecutive attempts are exactly baseDelay * 2 ^ i for
the failing attempt index i, in order; when every attempt fails
retryably, the propagated error is the failure of the final attempt; and
when the first attempt fails retryably with maxRetries at least 1, the
wait before the second attempt is exactly baseDelay. -/
theorem retry_backoff_bounds {α : Type} (work : Nat → Except JsError α)
    (maxRetries baseDelay : Nat) :
    (retryWithBackoff work maxRetries baseDelay).attempts ≤ maxRetries + 1 ∧
    (retryWithBackoff work maxRetries baseDelay).delays =
      (List.range ((retryWithBackoff work maxRetries baseDelay).attempts - 1)).map
        (fun i => baseDelay * 2 ^ i) ∧
    (∀ f : Nat → JsError, (∀ i, work i = .error (f i)) →
        (∀ i, isFatalStatus (f i) = false) →
        (retryWithBackoff work maxRetries baseDelay).result = .error (f maxRetries)) ∧
    (∀ e : JsError, work 0 = .error e → isFatalStatus e = false → 1 ≤ maxRetries →
        (retryWithBackoff work maxRetries baseDelay).delays.head? = some baseDelay) := by
  refine ⟨retryLoop_attempts_le work baseDelay maxRetries 0, ?_, ?_, ?_⟩
  · have h := retryLoop_delays_shape work baseDelay maxRetries 0
    simpa using h
  · intro f hw hnf
    have h := retryLoop_exhaust work baseDelay f hw hnf maxRetries 0
    simpa using h
  · intro e h0 hf hm
    obtain ⟨r, hr⟩ : ∃ r, maxRetries = r + 1 := ⟨maxRetries - 1, by omega⟩
    unfold retryWithBackoff
    rw [hr, retryLoop, h0]
    simp [hf]

/-- The canonical retryable error: a network failure with no response. -/
def errNetwork : JsError := ⟨true, none, "Network Error"⟩

/-- Witness: with baseDelay = 1000 and maxRetries = 1 (two total attempts)
and every attempt failing retryably, the wait before attempt 2 is exactly
1000ms and the final attempt's failure is propagated. -/
theorem retry_backoff_bounds_witness :
    (retryWithBackoff (fun _ => (Except.error errNetwork : Except JsError Nat)) 1 1000).delays.head? =
      some 1000 ∧
    (retryWithBackoff (fun _ => (Except.error errNetwork : Except JsError Nat)) 1 1000).result =
      Except.error errNetwork :=
  by
  have h1 : isFatalStatus errNetwork = false := by decide
  exact ⟨(retry_backoff_bounds (fun _ => (Except.error errNetwork : Except JsError Nat)) 1 1000).2.2.2
      errNetwork rfl h1 (by decide),
    (retry_backoff_bounds (fun _ => (Except.error errNetwork : Except JsError Nat)) 1 1000).2.2.1
      (fun _ => errNetwork) (fun _ => rfl) (fun _ => h1)⟩

/-- C6 counterexample: a payload whose occupancy field is the number
Infinity is not finite, so by the claim it must be dropped; the code's
acceptance test is only !isNaN(x) && x >= 0, which Infinity passes, so the
normalizer yields it as a sample. -/
theorem occupancy_accepts_infinite_candidate :
    normalizeOccupancy (SocketPayload.obj
      ⟨JsPrim.num JsNum.posInf, JsPrim.undef, JsPrim.undef, JsPrim.undef⟩) =
      some JsNum.posInf ∧
    jsFiniteB JsNum.posInf = false := by
  exact ⟨rfl, rfl⟩

lemma occGuard_full (p : JsPrim) :
    (if p == JsPrim.undef || p == JsPrim.nullv then none else acceptOcc p) = acceptOcc p := by
  cases p <;> rfl

lemma occGuard_undef (p : JsPrim) :
    (if p == JsPrim.undef then none else acceptOcc p) = acceptOcc p := by
  cases p <;> rfl

/-- C6 (amended): for every stream payload the normalizer probes the
fields occupancy, count, current, value in that order and yields the first
candidate accepted by the coercion test — which accepts any non-NaN number
that is ≥ 0, Infinity included (finiteness is NOT required); a directly
numeric payload is accepted under the same test, every other non-object
payload yields no sample; in particular a count field "42" yields the
sample 42 and a payload with none of the probed fields yields no sample. -/
theorem occupancy_extraction_order (o : OccObj) (x : JsNum) (p : JsPrim) :
    normalizeOccupancy (SocketPayload.obj o) =
      specFirstAccepted [o.occupancy, o.count, o.current, o.value] ∧
    normalizeOccupancy (SocketPayload.prim (JsPrim.num x)) =
      (if !jsIsNaN x && jsGe0 x then some x else none) ∧
    ((∀ y : JsNum, p ≠ JsPrim.num y) → normalizeOccupancy (SocketPayload.prim p) = none) ∧
    normalizeOccupancy (SocketPayload.obj
      ⟨JsPrim.undef, JsPrim.str "42", JsPrim.undef, JsPrim.undef⟩) = some (JsNum.fin 42) ∧
    normalizeOccupancy (SocketPayload.obj
      ⟨JsPrim.undef, JsPrim.undef, JsPrim.undef, JsPrim.undef⟩) = none := by
  refine ⟨?_, rfl, ?_, by decide, rfl⟩
  · simp only [normalizeOccupancy, specFirstAccepted, List.findSome?, occGuard_full, occGuard_undef]
    cases acceptOcc o.occupancy <;> cases acceptOcc o.count <;>
      cases acceptOcc o.current <;> cases acceptOcc o.value <;> rfl
  · intro hp
    cases p with
    | num y => exact absurd rfl (hp y)
    | undef => rfl
    | nullv => rfl
    | str s => rfl
    | boolv b => rfl
    | objv => rfl

/-- Witness for the amended C6 theorem: applied at a concrete payload, with
the non-number hypothesis discharged for the string payload "abc". -/
theorem occupancy_extraction_order_witness :
    normalizeOccupancy (SocketPayload.prim (JsPrim.str "abc")) = none :=
  (occupancy_extraction_order ⟨JsPrim.undef, JsPrim.undef, JsPrim.undef, JsPrim.undef⟩
    JsNum.nan (JsPrim.str "abc")).2.2.1 (fun _ h => JsPrim.noConfusion h)

/-- The auth session state the AuthService keeps (auth.service.ts): the
in-memory token and siteId fields and their localStorage copies. -/
structure AuthState where
  token : Option String
  siteId : Option String
  lsToken : Option String
  lsSiteId : Option String
deriving DecidableEq, Repr

/-- AuthService.logout (auth.service.ts lines 404-409): both in-memory
fields are nulled and both localStorage keys removed. -/
def authLogout (a : AuthState) : AuthState :=
  { a with token := none, siteId := none, lsToken := none, lsSiteId := none }

/-- The observable effect of the apiClient response-error interceptor
(analytics.service.ts lines 45-71) on one failed response: the possibly
torn-down session, whether the browser was redirected to /login, and the
error the interceptor re-rejects with.  It runs per response, before and
independently of the Promise.allSettled batch bookkeeping. -/
structure InterceptOutcome where
  auth : AuthState
  redirectedToLogin : Bool
  propagated : JsError
deriving DecidableEq, Repr

/-- Embedding of the response-error interceptor: a 401 status triggers
authService.logout() and the redirect to /login; in every case the
original error is re-rejected so the calling query still fails. -/
def responseErrorInterceptor (a : AuthState) (e : JsError) : InterceptOutcome :=
  if e.status = some 401 then
    ⟨authLogout a, true, e⟩
  else
    ⟨a, false, e⟩

/-- C9: every query failure with HTTP status 401 tears the session down —
token and siteId are cleared from memory and localStorage — and redirects
to the login view, while the error is still propagated so the query's own
Failure outcome is unchanged. -/
theorem unauthorized_response_clears_session (a : AuthState) (e : JsError)
    (h : e.status = some 401) :
    (responseErrorInterceptor a e).auth.token = none ∧
    (responseErrorInterceptor a e).auth.siteId = none ∧
    (responseErrorInterceptor a e).auth.lsToken = none ∧
    (responseErrorInterceptor a e).auth.lsSiteId = none ∧
    (responseErrorInterceptor a e).redirectedToLogin = true ∧
    (responseErrorInterceptor a e).propagated = e := by
  simp [responseErrorInterceptor, h, authLogout]

/-- Witness: a concrete logged-in session hit by a concrete 401 error. -/
theorem unauthorized_response_clears_session_witness :
    (responseErrorInterceptor ⟨some "tok", some "site1", some "tok", some "site1"⟩ err401).auth.token = none ∧
    (responseErrorInterceptor ⟨some "tok", some "site1", some "tok", some "site1"⟩ err401).auth.siteId = none ∧
    (responseErrorInterceptor ⟨some "tok", some "site1", some "tok", some "site1"⟩ err401).auth.lsToken = none ∧
    (responseErrorInterceptor ⟨some "tok", some "site1", some "tok", some "site1"⟩ err401).auth.lsSiteId = none ∧
    (responseErrorInterceptor ⟨some "tok", some "site1", some "tok", some "site1"⟩ err401).redirectedToLogin = true ∧
    (responseErrorInterceptor ⟨some "tok", some "site1", some "tok", some "site1"⟩ err401).propagated = err401 :=
  unauthorized_response_clears_session ⟨some "tok", some "site1", some "tok", some "site1"⟩ err401 rfl

/-- The SocketService handler registry (socket.service.ts): the two
handler lists; a handler is identified by its function reference, modelled
as a Nat. -/
structure SocketHandlersState where
  alertHandlers : List Nat
  occupancyHandlers : List Nat
deriving DecidableEq, Repr

/-- onAlert(handler) pushes the handler onto the alert list. -/
def registerAlertHandler (s : SocketHandlersState) (h : Nat) : SocketHandlersState :=
  { s with alertHandlers := s.alertHandlers ++ [h] }

/-- onLiveOccupancy(handler) pushes the handler onto the occupancy list. -/
def registerOccupancyHandler (s : SocketHandlersState) (h : Nat) : SocketHandlersState :=
  { s with occupancyHandlers := s.occupancyHandlers ++ [h] }

/-- The disposer returned by onAlert: filters the handler out of the alert
list by reference inequality. -/
def disposeAlertHandler (h : Nat) (s : SocketHandlersState) : SocketHandlersState :=
  { s with alertHandlers := s.alertHandlers.filter (fun x => x != h) }

/-- The disposer returned by onLiveOccupancy. -/
def disposeOccupancyHandler (h : Nat) (s : SocketHandlersState) : SocketHandlersState :=
  { s with occupancyHandlers := s.occupancyHandlers.filter (fun x => x != h) }

/-- disconnect(): the socket is dropped and both handler lists cleared. -/
def socketDisconnect (_s : SocketHandlersState) : SocketHandlersState :=
  ⟨[], []⟩

/-- Dispatching one alert event calls each registered alert handler in
list order (the forEach at socket.service.ts line 46); the returned list
is the sequence of handlers invoked. -/
def dispatchAlert (s : SocketHandlersState) : List Nat :=
  s.alertHandlers

/-- Dispatching one occupancy event calls each registered occupancy
handler in list order. -/
def dispatchOccupancy (s : SocketHandlersState) : List Nat :=
  s.occupancyHandlers

lemma count_filter_ne (l : List Nat) (h g : Nat) :
    (l.filter (fun x => x != h)).count g = if g = h then 0 else l.count g := by
  by_cases hgh : g = h
  · subst hgh
    rw [if_pos rfl, List.count_eq_zero]
    intro hmem
    have hpred := (List.mem_filter.mp hmem).2
    simp at hpred
  · rw [if_neg hgh]
    apply List.count_filter
    simp [hgh]

/-- C10: invoking the disposer returned by onAlert (resp. onLiveOccupancy)
removes exactly that handler from the corresponding list — a subsequent
dispatch invokes every other handler exactly as often as before and the
removed handler not at all — and leaves the other list untouched; a newly
registered handler is invoked after the existing ones; after disconnect
both lists are empty so no previously registered handler is invoked. -/
theorem handler_registry_dispose_disconnect (s : SocketHandlersState) (h g : Nat) :
    (dispatchAlert (disposeAlertHandler h s)).count g =
      (if g = h then 0 else (dispatchAlert s).count g) ∧
    (dispatchOccupancy (disposeOccupancyHandler h s)).count g =
      (if g = h then 0 else (dispatchOccupancy s).count g) ∧
    (disposeAlertHandler h s).occupancyHandlers = s.occupancyHandlers ∧
    (disposeOccupancyHandler h s).alertHandlers = s.alertHandlers ∧
    dispatchAlert (registerAlertHandler s g) = dispatchAlert s ++ [g] ∧
    dispatchOccupancy (registerOccupancyHandler s g) = dispatchOccupancy s ++ [g] ∧
    dispatchAlert (socketDisconnect s) = [] ∧
    dispatchOccupancy (socketDisconnect s) = [] :=
  ⟨count_filter_ne s.alertHandlers h g, count_filter_ne s.occupancyHandlers h g,
   rfl, rfl, rfl, rfl, rfl, rfl⟩
